import Mathlib

/-!
Shallow embedding of the `syslog2` Python package (file `syslog2/_syslog2.py`),
restricted to the parts needed to settle the claims: priority encoding,
wire-line formatting, timestamp rendering, Unix-socket probing, local-target
resolution, the emit send/retry logic, facility validation at construction,
and the deprecated `mapPriority` helper.

Conventions of the embedding:
* Python `int` values are `Nat` (all values involved are nonnegative);
* a Python value that may be `int` or `str` is `IntOrStr`;
* a Python function that may raise is `Except PyExc _` (the `PyExc`
  constructor records the exception class that the `except` clauses
  discriminate on);
* dictionaries with string keys are association lists queried with
  `List.lookup`;
* side effects on sockets are recorded as explicit event traces.
-/

namespace Syslog2

/-- Exception classes distinguished by the `except` clauses of the source:
`OSError`, `syslog2.SysLogTargetError`, `ValueError`, `KeyError`. -/
inductive PyExc where
  | osError
  | targetError
  | valueError
  | keyError
  deriving DecidableEq, Repr

/-- A Python argument that may be an `int` or a `str`. -/
inductive IntOrStr where
  | int (n : Nat)
  | str (s : String)
  deriving DecidableEq, Repr

/-- Severity names table (`SysLogHandler.severity_names`, lines 166-179). -/
def severity_names : List (String × Nat) :=
  [("alert", 1), ("crit", 2), ("critical", 2), ("debug", 7), ("emerg", 0),
   ("err", 3), ("error", 3), ("info", 6), ("notice", 5), ("panic", 0),
   ("warn", 4), ("warning", 4)]

/-- Facility names table (`SysLogHandler.facility_names`, lines 182-207). -/
def facility_names : List (String × Nat) :=
  [("kern", 0), ("user", 1), ("mail", 2), ("daemon", 3), ("auth", 4),
   ("syslog", 5), ("lpr", 6), ("news", 7), ("uucp", 8), ("cron", 9),
   ("authpriv", 10), ("ftp", 11), ("ntp", 12), ("security", 13),
   ("console", 14), ("solaris-cron", 15), ("local0", 16), ("local1", 17),
   ("local2", 18), ("local3", 19), ("local4", 20), ("local5", 21),
   ("local6", 22), ("local7", 23)]

/-- The level map installed on a syslog platform (`_level_map`, lines
316-322): Python logging level name to syslog severity code. -/
def levelMap : List (String × Nat) :=
  [("DEBUG", 7), ("INFO", 6), ("WARNING", 4), ("ERROR", 3), ("CRITICAL", 2)]

/-- `SysLogHandler._encode_priority` (lines 554-561):
`(self._facility << 3) | _level_map[record.levelname]`.  A missing level
name would raise `KeyError`, modelled as `none`. -/
def _encode_priority (facility : Nat) (levelname : String) : Option Nat :=
  (levelMap.lookup levelname).map (fun sev => (facility <<< 3) ||| sev)

/-- Resolution of an int-or-str argument against a name table, as done at
the head of `encodePriority` (lines 589-592): a string is looked up (a
missing key raises `KeyError`), an int is passed through unchanged. -/
def resolveName (table : List (String × Nat)) : IntOrStr → Option Nat
  | .int n => some n
  | .str s => table.lookup s

/-- `SysLogHandler.encodePriority` (lines 563-593): resolve symbolic
facility/severity arguments through the name tables, then
`(facility << 3) | priority`. -/
def encodePriority (facility priority : IntOrStr) : Option Nat := do
  let f ← resolveName facility_names facility
  let p ← resolveName severity_names priority
  return (f <<< 3) ||| p

/-- `SysLogHandler.mapPriority` (lines 595-612):
`self._level_map.get(levelName, 'WARNING')` — the dict `.get` default is
the string `'WARNING'`, not a severity code. -/
def mapPriority (levelName : String) : IntOrStr :=
  match levelMap.lookup levelName with
  | some sev => .int sev
  | none => .str "WARNING"

/-! ### Timestamp rendering

`SysLogHandler._timestamp_str` (lines 614-626) computes
`datetime.fromtimestamp(tm_secs, tz=pytz.utc).strftime('%Y-%m-%dT%H:%M:%S.%fZ')`.
The embedding represents the record's `created` time as integer
microseconds since the Unix epoch (`datetime.fromtimestamp` rounds the
float seconds to microsecond precision), restricted to nonnegative times,
and performs the civil-calendar conversion in UTC — the source pins
`tz=pytz.utc`, so no local-timezone offset is ever applied. -/

/-- Left-pad the decimal rendering of `n` with zeros to `width` digits, as
`strftime` does for `%m`, `%d`, `%H`, `%M`, `%S` (width 2), `%Y` (width 4)
and `%f` (width 6). -/
def padNum (width n : Nat) : String :=
  let s := toString n
  String.mk (List.replicate (width - s.length) '0') ++ s

/-- Convert a count of days since 1970-01-01 to a civil (year, month, day)
date in the proleptic Gregorian calendar, as the UTC `datetime` does. -/
def civilFromDays (z : Nat) : Nat × Nat × Nat :=
  let z' := z + 719468
  let era := z' / 146097
  let doe := z' % 146097
  let yoe := (doe - doe / 1460 + doe / 36524 - doe / 146096) / 365
  let y := yoe + era * 400
  let doy := doe - (365 * yoe + yoe / 4 - yoe / 100)
  let mp := (5 * doy + 2) / 153
  let d := doy - (153 * mp + 2) / 5 + 1
  let m := if mp < 10 then mp + 3 else mp - 9
  (if m ≤ 2 then y + 1 else y, m, d)

/-- `SysLogHandler._timestamp_str` (lines 614-626) on a time given as
microseconds since the epoch: ISO-8601 UTC with microsecond precision and
a literal `Z` suffix. -/
def _timestamp_str (us : Nat) : String :=
  let secs := us / 1000000
  let micro := us % 1000000
  let sod := secs % 86400
  let ymd := civilFromDays (secs / 86400)
  padNum 4 ymd.1 ++ "-" ++ padNum 2 ymd.2.1 ++ "-" ++ padNum 2 ymd.2.2 ++
    "T" ++ padNum 2 (sod / 3600) ++ ":" ++ padNum 2 (sod % 3600 / 60) ++
    ":" ++ padNum 2 (sod % 60) ++ "." ++ padNum 6 micro ++ "Z"

/-! ### Wire-line construction in `emit` -/

/-- The concrete wire formats `emit` can see (`_valid_formats` minus
`None`, which `_init_target` always resolves away, lines 402-427). -/
inductive WireFormat where
  | user
  | pri
  | rfc3164
  | rfc5424
  deriving DecidableEq, Repr

/-- The line built by `emit` (lines 639-663) before encoding, from the
handler's facility, the record's level name, the record's `created` time
(microseconds since epoch), the FQDN hostname, the handler's program, the
record's process id and the formatted message.  A `KeyError` from the
level lookup is `none`. -/
def build_line (fmt : WireFormat) (facility : Nat) (levelname : String)
    (created_us : Nat) (hostname program : String) (pid : Nat)
    (msg : String) : Option String :=
  match fmt with
  | .user => some msg
  | .pri =>
    (_encode_priority facility levelname).map (fun pri =>
      "<" ++ toString pri ++ ">" ++ msg)
  | .rfc3164 =>
    (_encode_priority facility levelname).map (fun pri =>
      "<" ++ toString pri ++ ">" ++ _timestamp_str created_us ++ " " ++
        hostname ++ " " ++ msg)
  | .rfc5424 =>
    (_encode_priority facility levelname).map (fun pri =>
      "<" ++ toString pri ++ ">1 " ++ _timestamp_str created_us ++ " " ++
        hostname ++ " " ++ program ++ " " ++ toString pid ++ " - " ++ msg)

/-- The byte string sent over a socket by `emit` (lines 689-693):
`line = line.encode('utf-8'); if self._append_nul: line += b'\x00'`.
Note the source applies this to every format, including `'user'`. -/
def emit_sent_bytes (fmt : WireFormat) (append_nul : Bool) (facility : Nat)
    (levelname : String) (created_us : Nat) (hostname program : String)
    (pid : Nat) (msg : String) : Option (List UInt8) :=
  (build_line fmt facility levelname created_us hostname program pid
      msg).map (fun line =>
    let bytes := line.toUTF8.toList
    if append_nul then bytes ++ [0] else bytes)

/-! ### Unix-domain socket probing

`_unix_socket` / `_unix_socket2` (lines 446-497).  Socket creation always
succeeds (`socket.socket(socket.AF_UNIX, socktype)`); only `connect` can
fail, raising `OSError`.  The environment is a predicate saying for which
socket kind `connect` succeeds, and the functions return the trace of
socket events next to the Python result. -/

/-- The two concrete Unix socket kinds, `socket.SOCK_DGRAM` and
`socket.SOCK_STREAM`. -/
inductive SockKind where
  | dgram
  | stream
  deriving DecidableEq, Repr

/-- Observable socket lifecycle events during initialization. -/
inductive SockEvent where
  | created (k : SockKind)
  | connected (k : SockKind)
  | closed (k : SockKind)
  deriving DecidableEq, Repr

/-- `SysLogHandler._unix_socket2` (lines 476-497): create the socket, try
to connect; on `OSError` close the socket and re-raise the `OSError`. -/
def _unix_socket2 (connect_ok : SockKind → Bool) (k : SockKind) :
    List SockEvent × Except PyExc SockKind :=
  if connect_ok k then
    ([.created k, .connected k], .ok k)
  else
    ([.created k, .closed k], .error .osError)

/-- `SysLogHandler._unix_socket` (lines 446-474).  With `socktype = None`
the source loops over `(SOCK_DGRAM, SOCK_STREAM)` calling `_unix_socket2`,
but its `except` clause catches only `SysLogTargetError`; any other
exception class escapes the loop at once.  After the loop, `raise
last_exc` re-raises the last caught exception. -/
def _unix_socket (connect_ok : SockKind → Bool)
    (socktype : Option SockKind) : List SockEvent × Except PyExc SockKind :=
  match socktype with
  | some k => _unix_socket2 connect_ok k
  | none =>
    match _unix_socket2 connect_ok .dgram with
    | (ev1, .ok k) => (ev1, .ok k)
    | (ev1, .error .targetError) =>
      match _unix_socket2 connect_ok .stream with
      | (ev2, .ok k) => (ev1 ++ ev2, .ok k)
      | (ev2, .error .targetError) => (ev1 ++ ev2, .error .targetError)
      | (ev2, .error e) => (ev1 ++ ev2, .error e)
    | (ev1, .error e) => (ev1, .error e)

/-! ### Local-target resolution at construction -/

/-- The platforms distinguished by `_PLATFORM` (lines 36-52). -/
inductive Platform where
  | linux
  | unix
  | macos_unified
  | macos_syslog
  | windows
  | cygwin
  | other
  deriving DecidableEq, Repr

/-- Address forms accepted by `__init__`: a Unix-domain path or an
Internet (host, port) pair.  The special-cased `None` entries of the
native-sink platforms are the `none` of an `Option Address`. -/
inductive Address where
  | unixPath (p : String)
  | inet (host : String) (port : Nat)
  deriving DecidableEq, Repr

/-- Default ports (lines 66-67). -/
def SYSLOG_UDP_PORT : Nat := 514

/-- One entry of the local-target candidate tables: (address, socktype,
format) with `none` for the table's `None` entries. -/
structure Candidate where
  address : Option Address
  socktype : Option SockKind
  fmt : Option WireFormat
  deriving DecidableEq, Repr

/-- `SysLogHandler._local_targets` (lines 92-115): the fixed ordered
candidate list per platform for `address='local'`. -/
def _local_targets : Platform → List Candidate
  | .linux =>
    [⟨some (.unixPath "/dev/log"), some .dgram, some .rfc5424⟩,
     ⟨some (.inet "localhost" SYSLOG_UDP_PORT), none, some .rfc5424⟩]
  | .unix => [⟨some (.inet "localhost" SYSLOG_UDP_PORT), none, some .rfc5424⟩]
  | .macos_unified => [⟨none, none, none⟩]
  | .macos_syslog => [⟨some (.unixPath "/var/run/syslog"), some .dgram, some .user⟩]
  | .windows => [⟨none, none, none⟩]
  | .cygwin => [⟨some (.unixPath "/dev/log"), some .dgram, some .rfc5424⟩]
  | .other => [⟨some (.inet "localhost" SYSLOG_UDP_PORT), none, some .rfc5424⟩]

/-- The `address == 'local'` loop of `__init__` (lines 352-375),
abstracted over the outcome of `_init_target` for each candidate: try the
candidates in order, keep the first success, catch `OSError` and remember
it as the last failure, and after an exhausted loop raise
`SysLogTargetError` carrying the last failure (`none` when the candidate
list itself was empty).  `T` is the bound-target data `_init_target`
stores on success. -/
def try_local_targets {C T E : Type} (outcome : C → Except E T) :
    List C → Option (C × E) → Except (Option (C × E)) T
  | [], last => .error last
  | c :: rest, _last =>
    match outcome c with
    | .ok t => .ok t
    | .error e => try_local_targets outcome rest (some (c, e))

/-- Construction with `address='local'` (lines 352-375): run the platform
candidate list through the fallback loop with no failure recorded yet.
An `Except.error` result is the `SysLogTargetError` raised out of
`__init__`, so no handler object reaches the caller. -/
def init_local {C T E : Type} (cands : List C) (outcome : C → Except E T) :
    Except (Option (C × E)) T :=
  try_local_targets outcome cands none

/-! ### `emit` on a connection-oriented socket: send, reconnect, retry

Lines 695-703 (Unix-domain) and 708-716 (network stream): `send` the
encoded line; on `OSError` close the stale socket, re-run the
initialization with the stored `(address, socktype)`, and send once more.
The whole `emit` body runs under `try ... except Exception:
self.handleError(record)` (lines 637-720).  The environment says whether
each send attempt and the re-initialization succeed. -/

/-- Outcome environment for one logical send: whether the first send, the
re-initialization, and the retried send succeed. -/
structure SendWorld where
  send1_ok : Bool
  reinit_ok : Bool
  send2_ok : Bool
  deriving DecidableEq, Repr

/-- Observable events while delivering one record. -/
inductive EmitEvent where
  | send (addr : String) (k : SockKind)
  | closeSock
  | re_init (addr : String) (k : SockKind)
  | handleError
  deriving DecidableEq, Repr

/-- The connection-oriented socket fields a handler carries into `emit`:
`self._address` and the concretized `self._socktype` stored by
`_init_target`. -/
structure UnixHandler where
  address : String
  socktype : SockKind
  deriving DecidableEq, Repr

/-- The Unix-domain send block of `emit` (lines 695-703): try
`self._socket.send(line)`; on `OSError` close the socket, re-initialize
via `_unix_socket(self._address, self._socktype)` and send again.  Any
failure of the re-initialization or of the second send propagates out of
this block. -/
def unix_send_with_retry (h : UnixHandler) (w : SendWorld) :
    List EmitEvent × Except PyExc Unit :=
  if w.send1_ok then
    ([.send h.address h.socktype], .ok ())
  else if w.reinit_ok then
    if w.send2_ok then
      ([.send h.address h.socktype, .closeSock,
        .re_init h.address h.socktype, .send h.address h.socktype], .ok ())
    else
      ([.send h.address h.socktype, .closeSock,
        .re_init h.address h.socktype, .send h.address h.socktype],
       .error .osError)
  else
    ([.send h.address h.socktype, .closeSock,
      .re_init h.address h.socktype], .error .osError)

/-- The whole `emit` body for a Unix-domain stream/datagram handler
(lines 637-720): formatting may raise (`fmt_exc`), otherwise the send
block runs; the surrounding `try ... except Exception` turns any
exception into exactly one `handleError` call and a normal return.  The
result is the trace, and the `Except` value that reaches `emit`'s caller. -/
def emit_unix (h : UnixHandler) (fmt_exc : Bool) (w : SendWorld) :
    List EmitEvent × Except PyExc Unit :=
  let body : List EmitEvent × Except PyExc Unit :=
    if fmt_exc then ([], .error .keyError) else unix_send_with_retry h w
  match body with
  | (ev, .ok u) => (ev, .ok u)
  | (ev, .error _) => (ev ++ [.handleError], .ok ())

/-! ### Handler construction: facility validation -/

/-- The facility-resolution step of `__init__` (lines 327-332): a
non-int facility is looked up in `facility_names`, and a `KeyError` is
turned into `ValueError("Invalid facility name: ...")`; an int facility
is used as given, with no range check. -/
def resolve_facility : IntOrStr → Except PyExc Nat
  | .int n => .ok n
  | .str s =>
    match facility_names.lookup s with
    | some code => .ok code
    | none => .error .valueError

/-- The handler state relevant to the facility claims. -/
structure HState where
  facility : Nat
  deriving DecidableEq, Repr

/-- Resource events during construction. -/
inductive InitEvent where
  | socketTouched
  deriving DecidableEq, Repr

/-- Construction for an explicit (non-`'local'`) address (lines 324-384):
facility resolution runs first (no socket has been created yet); only
afterwards does `_init_target` touch sockets, and its `OSError` is
wrapped into `SysLogTargetError`.  `target_ok` abstracts whether
`_init_target` succeeds. -/
def handler_init (facility : IntOrStr) (target_ok : Bool) :
    List InitEvent × Except PyExc HState :=
  match resolve_facility facility with
  | .error e => ([], .error e)
  | .ok f =>
    if target_ok then ([.socketTouched], .ok ⟨f⟩)
    else ([.socketTouched], .error .targetError)

/-! ### Helper lemmas -/

/-- A value produced by `List.lookup` on an association list is one of the
list's values. -/
theorem lookup_val_mem {l : List (String × Nat)} {k : String} {v : Nat}
    (h : l.lookup k = some v) : v ∈ l.map Prod.snd := by
  induction l with
  | nil => simp [List.lookup] at h
  | cons p t ih =>
    rw [List.lookup] at h
    by_cases hk : (k == p.1) = true
    · simp [hk] at h
      simp [← h]
    · simp [hk] at h
      simp [ih h]

/-- Every severity code in the syslog-platform level map is below 8. -/
theorem levelMap_val_lt {ln : String} {s : Nat}
    (h : levelMap.lookup ln = some s) : s < 8 := by
  have hm := lookup_val_mem h
  simp [levelMap] at hm
  omega

/-- Every facility code in `facility_names` is at most 23. -/
theorem facility_names_val_le {s : String} {c : Nat}
    (h : facility_names.lookup s = some c) : c ≤ 23 := by
  have hm := lookup_val_mem h
  simp [facility_names] at hm
  omega

/-- For facility below 24 and severity below 8, the shift-or formula of
the source equals `facility * 8 + severity`. -/
theorem shift_or_eq {f s : Nat} (hf : f < 24) (hs : s < 8) :
    f <<< 3 ||| s = f * 8 + s := by
  have h : ∀ f' < 24, ∀ s' < 8, f' <<< 3 ||| s' = f' * 8 + s' := by decide
  exact h f hf s hs

/-! ### Claims -/

/-- C1: for every facility code in 0..23 and every severity code in 0..7,
the priority computed by `_encode_priority` for a record whose level name
maps to that severity, and by the deprecated `encodePriority` for the
corresponding numeric or symbolic facility/severity inputs, equals
`facility * 8 + severity`, an integer at most 191, with no further
wrapping or clamping. -/
theorem c1_priority_formula (f s : Nat) (hf : f < 24) (hs : s < 8) :
    f * 8 + s ≤ 191 ∧
    (∀ ln, levelMap.lookup ln = some s →
      _encode_priority f ln = some (f * 8 + s)) ∧
    (∀ fa pa, resolveName facility_names fa = some f →
      resolveName severity_names pa = some s →
      encodePriority fa pa = some (f * 8 + s)) := by
  refine ⟨by omega, ?_, ?_⟩
  · intro ln hln
    simp [_encode_priority, hln, shift_or_eq hf hs]
  · intro fa pa hfa hpa
    simp [encodePriority, hfa, hpa, shift_or_eq hf hs]

/-- Witness for C1 at facility 16 (`local0`), severity 6 (`info`,
level name `INFO`): priority 134. -/
theorem c1_priority_formula_applied :
    16 * 8 + 6 ≤ 191 ∧
    _encode_priority 16 "INFO" = some (16 * 8 + 6) ∧
    encodePriority (.str "local0") (.str "info") = some (16 * 8 + 6) := by
  have h := c1_priority_formula 16 6 (by decide) (by decide)
  exact ⟨h.1, h.2.1 "INFO" (by decide),
    h.2.2 (.str "local0") (.str "info") (by decide) (by decide)⟩

/-- C10: for a level name missing from the level map, the deprecated
`mapPriority` returns the string `"WARNING"` itself, not the numeric
syslog severity 4 of the warning level; the five known level names map to
their severity codes. -/
theorem c10_mapPriority_fallback :
    (∀ ln, levelMap.lookup ln = none →
      mapPriority ln = .str "WARNING" ∧ mapPriority ln ≠ .int 4) ∧
    mapPriority "DEBUG" = .int 7 ∧ mapPriority "INFO" = .int 6 ∧
    mapPriority "WARNING" = .int 4 ∧ mapPriority "ERROR" = .int 3 ∧
    mapPriority "CRITICAL" = .int 2 := by
  refine ⟨?_, by decide, by decide, by decide, by decide, by decide⟩
  intro ln h
  simp [mapPriority, h]

/-- Witness for C10 at the unknown level name `NOTICE`. -/
theorem c10_mapPriority_fallback_applied :
    mapPriority "NOTICE" = .str "WARNING" ∧ mapPriority "NOTICE" ≠ .int 4 :=
  c10_mapPriority_fallback.1 "NOTICE" (by decide)

/-- C2: with the rfc5424 format, `emit` builds
`'<' + pri + '>1 ' + timestamp + ' ' + hostname + ' ' + program + ' ' +
pid + ' - ' + message`, the timestamp being ISO-8601 UTC with
microsecond precision and a literal `Z` suffix; at priority 134, epoch
microseconds 1704164645123456, hostname `host1`, program `app1`, pid 42
and message `hello` the line is exactly
`<134>1 2024-01-02T03:04:05.123456Z host1 app1 42 - hello`. -/
theorem c2_rfc5424_line (f : Nat) (ln : String) (us : Nat)
    (host prog : String) (pid : Nat) (msg : String) (pri : Nat)
    (hpri : _encode_priority f ln = some pri) :
    build_line .rfc5424 f ln us host prog pid msg =
      some ("<" ++ toString pri ++ ">1 " ++ _timestamp_str us ++ " " ++
        host ++ " " ++ prog ++ " " ++ toString pid ++ " - " ++ msg) ∧
    _timestamp_str 1704164645123456 = "2024-01-02T03:04:05.123456Z" ∧
    build_line .rfc5424 16 "INFO" 1704164645123456 "host1" "app1" 42
        "hello" =
      some "<134>1 2024-01-02T03:04:05.123456Z host1 app1 42 - hello" := by
  refine ⟨by simp [build_line, hpri], by decide, by decide⟩

/-- Witness for C2 at the concrete record of the claim. -/
theorem c2_rfc5424_line_applied :
    build_line .rfc5424 16 "INFO" 1704164645123456 "host1" "app1" 42
        "hello" =
      some ("<" ++ toString 134 ++ ">1 " ++
        _timestamp_str 1704164645123456 ++ " " ++ "host1" ++ " " ++
        "app1" ++ " " ++ toString 42 ++ " - " ++ "hello") :=
  (c2_rfc5424_line 16 "INFO" 1704164645123456 "host1" "app1" 42 "hello"
    134 (by decide)).1

/-- C3 counterexample: with the rfc3164 format the code puts no space
between the priority field and the timestamp, so at the claim's concrete
inputs the line is not `<134> 2024-01-02T03:04:05.123456Z host1 hello`. -/
theorem c3_rfc3164_space_cex :
    build_line .rfc3164 16 "INFO" 1704164645123456 "host1" "app1" 42
        "hello" ≠
      some "<134> 2024-01-02T03:04:05.123456Z host1 hello" := by decide

/-- C3 amended: with the rfc3164 format, `emit` builds
`'<' + pri + '>' + timestamp + ' ' + hostname + ' ' + message` — no space
after the closing `>`, and no program/pid/msgid fields; at the claim's
concrete inputs the line is exactly
`<134>2024-01-02T03:04:05.123456Z host1 hello`. -/
theorem c3_rfc3164_line (f : Nat) (ln : String) (us : Nat)
    (host prog : String) (pid : Nat) (msg : String) (pri : Nat)
    (hpri : _encode_priority f ln = some pri) :
    build_line .rfc3164 f ln us host prog pid msg =
      some ("<" ++ toString pri ++ ">" ++ _timestamp_str us ++ " " ++
        host ++ " " ++ msg) ∧
    build_line .rfc3164 16 "INFO" 1704164645123456 "host1" "app1" 42
        "hello" =
      some "<134>2024-01-02T03:04:05.123456Z host1 hello" := by
  refine ⟨by simp [build_line, hpri], by decide⟩

/-- Witness for the amended C3 at the concrete record of the claim. -/
theorem c3_rfc3164_line_applied :
    build_line .rfc3164 16 "INFO" 1704164645123456 "host1" "app1" 42
        "hello" =
      some ("<" ++ toString 134 ++ ">" ++
        _timestamp_str 1704164645123456 ++ " " ++ "host1" ++ " " ++
        "hello") :=
  (c3_rfc3164_line 16 "INFO" 1704164645123456 "host1" "app1" 42 "hello"
    134 (by decide)).1

/-- C4 (code bug): for the `user` (Raw) format with `append_nul=True`
over a socket target, `emit` appends a trailing 0x00 byte after UTF-8
encoding — lines 689-693 apply the `append_nul` flag to every format —
contradicting the constructor docstring, which states the `append_nul`
argument is ignored for the `user` format. -/
theorem c4_user_nul_bug :
    emit_sent_bytes .user true 16 "INFO" 0 "host1" "app1" 42 "hello" =
      some ("hello".toUTF8.toList ++ [0]) ∧
    emit_sent_bytes .user true 16 "INFO" 0 "host1" "app1" 42 "hello" ≠
      some "hello".toUTF8.toList := by
  constructor
  · simp [emit_sent_bytes, build_line]
  · intro h
    simp [emit_sent_bytes, build_line] at h

/-- Number of send attempts recorded in an emit trace. -/
def countSends (l : List EmitEvent) : Nat :=
  l.countP (fun e => match e with | .send _ _ => true | _ => false)

/-- Number of re-initialization attempts recorded in an emit trace. -/
def countReinits (l : List EmitEvent) : Nat :=
  l.countP (fun e => match e with | .re_init _ _ => true | _ => false)

/-- Number of `handleError` calls recorded in an emit trace. -/
def countErrors (l : List EmitEvent) : Nat :=
  l.countP (fun e => match e with | .handleError => true | _ => false)

/-- C5 (code bug): for a Unix-domain path with `socktype=None`, when the
Datagram connect fails with `OSError` the probing loop of `_unix_socket`
does not move on to Stream — its `except` clause catches only
`SysLogTargetError`, which `_unix_socket2` never raises — so the
`OSError` propagates at once; the trace shows the Datagram socket closed
but no Stream socket ever created, although a direct Stream attempt in
the same environment would have succeeded. -/
theorem c5_unix_probe_bug :
    _unix_socket
        (fun k => match k with | .dgram => false | .stream => true) none =
      ([.created .dgram, .closed .dgram], .error .osError) ∧
    SockEvent.created .stream ∉
      (_unix_socket
        (fun k => match k with | .dgram => false | .stream => true)
        none).1 ∧
    _unix_socket2
        (fun k => match k with | .dgram => false | .stream => true)
        .stream =
      ([.created .stream, .connected .stream], .ok .stream) :=
  ⟨rfl, by decide, rfl⟩

/-- If the candidates split as `pre ++ c :: post` with every candidate in
`pre` failing and `c` succeeding with target `t`, the fallback loop
returns `t`, whatever failure was recorded so far. -/
theorem try_local_targets_ok {C T E : Type} (outcome : C → Except E T)
    (pre : List C) (c : C) (post : List C) (t : T)
    (hpre : ∀ c' ∈ pre, ∃ e, outcome c' = .error e)
    (hc : outcome c = .ok t) (last : Option (C × E)) :
    try_local_targets outcome (pre ++ c :: post) last = .ok t := by
  induction pre generalizing last with
  | nil => simp [try_local_targets, hc]
  | cons p pre' ih =>
    obtain ⟨e, he⟩ := hpre p (by simp)
    simp only [List.cons_append, try_local_targets, he]
    exact ih (fun c' hc' => hpre c' (by simp [hc'])) _

/-- If every candidate fails, the fallback loop raises carrying the last
candidate's failure (or the incoming record when the list is empty). -/
theorem try_local_targets_all_fail {C T E : Type}
    (outcome : C → Except E T) (errOf : C → E) (l : List C)
    (hall : ∀ c ∈ l, outcome c = .error (errOf c)) :
    ∀ last, try_local_targets outcome l last =
      .error ((l.getLast?).elim last (fun c => some (c, errOf c))) := by
  induction l with
  | nil => intro last; simp [try_local_targets]
  | cons c rest ih =>
    intro last
    have hc := hall c (by simp)
    simp only [try_local_targets, hc]
    rw [ih (fun c' h' => hall c' (by simp [h']))]
    cases rest with
    | nil => simp
    | cons r rs =>
      rw [List.getLast?_cons_cons]
      rcases hgl : (r :: rs).getLast? with _ | x
      · simp [List.getLast?_eq_none_iff] at hgl
      · simp

/-- C6: with `address='local'`, the platform's fixed ordered candidate
list is attempted in order and the first candidate whose initialization
succeeds determines the bound target; if every candidate fails,
construction raises `SysLogTargetError` carrying the last candidate's
failure — an `Except.error` out of `__init__`, so no handler object
reaches the caller. -/
theorem c6_local_resolution {C T E : Type} (outcome : C → Except E T)
    (cands : List C) (errOf : C → E) :
    (∀ pre c post t, cands = pre ++ c :: post →
      (∀ c' ∈ pre, ∃ e, outcome c' = .error e) →
      outcome c = .ok t → init_local cands outcome = .ok t) ∧
    ((∀ c ∈ cands, outcome c = .error (errOf c)) →
      init_local cands outcome =
        .error ((cands.getLast?).map (fun c => (c, errOf c)))) := by
  constructor
  · intro pre c post t hsplit hpre hok
    subst hsplit
    exact try_local_targets_ok outcome pre c post t hpre hok none
  · intro hall
    rw [init_local, try_local_targets_all_fail outcome errOf cands hall none]
    cases cands.getLast? <;> simp

/-- An initialization environment for the C6 witness: any candidate
requesting a Datagram socket fails (as `/dev/log` does when absent),
anything else succeeds and is bound. -/
def probeOutcome (c : Candidate) : Except Nat Candidate :=
  if c.socktype = some SockKind.dgram then .error 7 else .ok c

/-- Witness for C6 on the Linux candidate table: an environment where
`/dev/log` fails and the UDP candidate succeeds binds the second
candidate; an environment where both fail raises carrying the second
(last) candidate's failure. -/
theorem c6_local_resolution_applied :
    init_local (_local_targets .linux) probeOutcome =
      .ok ⟨some (.inet "localhost" SYSLOG_UDP_PORT), none, some .rfc5424⟩ ∧
    init_local (_local_targets .linux)
        (fun _ => (Except.error 7 : Except Nat Candidate)) =
      .error (some
        (⟨some (.inet "localhost" SYSLOG_UDP_PORT), none, some .rfc5424⟩,
          7)) := by
  constructor
  · exact (c6_local_resolution probeOutcome
        (_local_targets .linux) (fun _ => 7)).1
      [⟨some (.unixPath "/dev/log"), some .dgram, some .rfc5424⟩]
      ⟨some (.inet "localhost" SYSLOG_UDP_PORT), none, some .rfc5424⟩
      []
      ⟨some (.inet "localhost" SYSLOG_UDP_PORT), none, some .rfc5424⟩
      rfl
      (by
        intro c' hc'
        simp at hc'
        subst hc'
        exact ⟨7, rfl⟩)
      rfl
  · have h := (c6_local_resolution
        (fun _ => (Except.error 7 : Except Nat Candidate))
        (_local_targets .linux) (fun _ => 7)).2 (fun c _ => rfl)
    simpa [_local_targets] using h

/-- C7: over a connection-oriented Unix-domain socket, a write failure in
`emit` triggers exactly one recovery — the trace never holds more than
two sends or more than one re-initialization, every re-initialization
uses the handler's stored address and concretized socket kind, a failed
first send with successful recovery yields exactly two sends, a
successful retry delivers with no error report, a failed retry (or
failed re-initialization) surfaces as exactly one `handleError` report,
and `emit` returns normally for every environment, leaving the handler
usable for the next record. -/
theorem c7_single_retry (h : UnixHandler) (w : SendWorld) :
    countSends (unix_send_with_retry h w).1 ≤ 2 ∧
    countReinits (unix_send_with_retry h w).1 ≤ 1 ∧
    (∀ a k, EmitEvent.re_init a k ∈ (unix_send_with_retry h w).1 →
      a = h.address ∧ k = h.socktype) ∧
    (w.send1_ok = false → w.reinit_ok = true →
      countSends (unix_send_with_retry h w).1 = 2) ∧
    (w.send1_ok = false → w.reinit_ok = true → w.send2_ok = true →
      (unix_send_with_retry h w).2 = .ok () ∧
      countErrors (emit_unix h false w).1 = 0) ∧
    (w.send1_ok = false → (w.reinit_ok = false ∨ w.send2_ok = false) →
      (unix_send_with_retry h w).2 = .error .osError ∧
      countErrors (emit_unix h false w).1 = 1) ∧
    (∀ w', (emit_unix h false w').2 = .ok ()) := by
  have hall : ∀ w' : SendWorld, (emit_unix h false w').2 = .ok () := by
    intro w'
    rcases w' with ⟨t1, t2, t3⟩
    cases t1 <;> cases t2 <;> cases t3 <;>
      simp [unix_send_with_retry, emit_unix]
  rcases w with ⟨s1, ri, s2⟩
  refine ⟨?_, ?_, ?_, ?_, ?_, ?_, hall⟩ <;>
    cases s1 <;> cases ri <;> cases s2 <;>
      simp [unix_send_with_retry, emit_unix, countSends, countReinits,
        countErrors, List.countP_cons]

/-- Witness for C7 at a concrete handler and the environment where the
first send fails and the retry succeeds. -/
theorem c7_single_retry_applied :
    countSends
        (unix_send_with_retry ⟨"/dev/log", .dgram⟩ ⟨false, true, true⟩).1 =
      2 ∧
    (unix_send_with_retry ⟨"/dev/log", .dgram⟩ ⟨false, true, true⟩).2 =
      .ok () ∧
    countErrors (emit_unix ⟨"/dev/log", .dgram⟩ false ⟨false, true, true⟩).1
      = 0 := by
  have h := c7_single_retry ⟨"/dev/log", .dgram⟩ ⟨false, true, true⟩
  obtain ⟨hok, herr⟩ := h.2.2.2.2.1 rfl rfl rfl
  exact ⟨h.2.2.2.1 rfl rfl, hok, herr⟩

/-- C8: every exception raised inside the body of `emit` — a formatting
failure or a transport failure surviving the single reconnect-retry — is
caught by the surrounding `try/except` and turned into exactly one
`handleError` report; `emit` always returns normally to its caller, in
every environment. -/
theorem c8_emit_catches_all (h : UnixHandler) (fe : Bool) (w : SendWorld) :
    (emit_unix h fe w).2 = .ok () ∧
    (fe = false → (unix_send_with_retry h w).2 = .ok () →
      countErrors (emit_unix h fe w).1 = 0) ∧
    (∀ e, fe = false → (unix_send_with_retry h w).2 = .error e →
      (emit_unix h fe w).1 =
        (unix_send_with_retry h w).1 ++ [.handleError]) ∧
    (fe = true → (emit_unix h fe w).1 = [.handleError]) := by
  rcases w with ⟨s1, ri, s2⟩
  cases fe <;> cases s1 <;> cases ri <;> cases s2 <;>
    simp [unix_send_with_retry, emit_unix, countErrors, List.countP_cons]

/-- Witness for C8 at the environment where every attempt fails: `emit`
still returns normally, with the trace ending in one `handleError`. -/
theorem c8_emit_catches_all_applied :
    (emit_unix ⟨"/dev/log", .dgram⟩ false ⟨false, false, false⟩).2 =
      .ok () ∧
    (emit_unix ⟨"/dev/log", .dgram⟩ false ⟨false, false, false⟩).1 =
      (unix_send_with_retry ⟨"/dev/log", .dgram⟩ ⟨false, false, false⟩).1
        ++ [.handleError] := by
  have h := c8_emit_catches_all ⟨"/dev/log", .dgram⟩ false
    ⟨false, false, false⟩
  exact ⟨h.1, h.2.2.1 .osError rfl rfl⟩

/-- C9 counterexample: an integer facility is stored without any range
check, so construction with facility 99 succeeds and the stored facility
is 99, outside 0..23. -/
theorem c9_facility_range_cex :
    handler_init (.int 99) true = ([.socketTouched], .ok ⟨99⟩) ∧
    ¬(99 ≤ 23) := ⟨rfl, by decide⟩

/-- C9 amended: a symbolic facility name is mapped 1:1 to its code, which
is always in 0..23, and an invalid symbolic name raises `ValueError`
before any socket is touched; an integer facility, however, is stored
as given with no range check, so only symbolic inputs are guaranteed the
0..23 invariant after construction. -/
theorem c9_facility_validation (s : String) (n : Nat) (t : Bool) :
    (∀ code, facility_names.lookup s = some code →
      resolve_facility (.str s) = .ok code ∧ code ≤ 23 ∧
      handler_init (.str s) true = ([.socketTouched], .ok ⟨code⟩)) ∧
    (facility_names.lookup s = none →
      handler_init (.str s) t = ([], .error .valueError)) ∧
    handler_init (.int n) true = ([.socketTouched], .ok ⟨n⟩) := by
  refine ⟨?_, ?_, rfl⟩
  · intro code hc
    exact ⟨by simp [resolve_facility, hc], facility_names_val_le hc,
      by simp [handler_init, resolve_facility, hc]⟩
  · intro hn
    simp [handler_init, resolve_facility, hn]

/-- Witness for the amended C9 at the valid name `local0`, the invalid
name `nosuch`, and the integer facility 5. -/
theorem c9_facility_validation_applied :
    resolve_facility (.str "local0") = .ok 16 ∧ (16 : Nat) ≤ 23 ∧
    handler_init (.str "local0") true = ([.socketTouched], .ok ⟨16⟩) ∧
    handler_init (.str "nosuch") true = ([], .error .valueError) ∧
    handler_init (.int 5) true = ([.socketTouched], .ok ⟨5⟩) := by
  obtain ⟨a, b, c⟩ := (c9_facility_validation "local0" 5 true).1 16
    (by decide)
  exact ⟨a, b, c, (c9_facility_validation "nosuch" 5 true).2.1 (by decide),
    (c9_facility_validation "x" 5 true).2.2⟩

end Syslog2
